import Mathlib

/-!
Verification of the rwfile crate: a multiple-reader / single-writer
coordination primitive for one file on disk (src/lib.rs).

Shallow embedding conventions:
  - The filesystem collaborator is a map from paths to byte lists,
    threaded explicitly (type FS).  File handles carry a path, a cursor
    and the access mode they were opened with.
  - The mutex-protected RWFileMeta is modelled as a plain value; every
    operation that the source performs inside one lock acquisition is
    one Lean function on RWFileMeta.
  - The acquisition loops of RWFile::reader / RWFile::writer are
    modelled one iteration at a time: the admission check-and-set
    (readerAdmit / writerAdmit) returns none when the loop body would
    drop the guard and yield, some when the condition holds and the
    state was flipped.  The full acquisition then performs the open;
    the source unwraps the open result, so a failed open is a panic
    (AcqResult.panicked), never a returned error.
  - Concurrent interleavings of acquisitions and releases are a
    transition relation SysStep on SysState, which pairs the lock state
    with the number of outstanding read and write guards.
-/

/-- Error channel of the file-handle collaborator. -/
inductive IoError where
  | notFound
  | badHandle
deriving DecidableEq

/-- An open file handle: the path it was opened at, its private cursor,
and the access mode it was opened with (OpenOptions read / write). -/
structure File where
  path : String
  cursor : Nat
  readOpen : Bool
  writeOpen : Bool
deriving DecidableEq

/-- The filesystem: an association of paths to byte contents. -/
abbrev FS := List (String × List Nat)

/-- Look up the contents stored at a path. -/
def FS.lookup : FS → String → Option (List Nat)
  | [], _ => none
  | (q, d) :: rest, p => if q = p then some d else FS.lookup rest p

/-- Replace (or create) the contents stored at a path. -/
def FS.update : FS → String → List Nat → FS
  | [], p, d => [(p, d)]
  | (q, e) :: rest, p, d =>
      if q = p then (q, d) :: rest else (q, e) :: FS.update rest p d

/-- Open a file for reading: OpenOptions::new().read(true).open(path).
Fails when no file exists at the path; the fresh handle's cursor is 0. -/
def openRead (fs : FS) (p : String) : Except IoError File :=
  match FS.lookup fs p with
  | some _ => Except.ok { path := p, cursor := 0, readOpen := true, writeOpen := false }
  | none => Except.error IoError.notFound

/-- Open a file for writing: OpenOptions::new().write(true).create(true)
.open(path).  Creates an empty file when absent; existing contents are
kept (no truncate); the fresh handle's cursor is 0 (no append). -/
def openWrite (fs : FS) (p : String) : File × FS :=
  match FS.lookup fs p with
  | some _ => ({ path := p, cursor := 0, readOpen := false, writeOpen := true }, fs)
  | none => ({ path := p, cursor := 0, readOpen := false, writeOpen := true },
             FS.update fs p [])

/-- Overwrite the bytes of a file at a position, zero-padding when the
position lies past the end, keeping the suffix beyond the written span. -/
def overwriteBytes (d : List Nat) (pos : Nat) (buf : List Nat) : List Nat :=
  d.take pos ++ List.replicate (pos - d.length) 0 ++ buf ++ d.drop (pos + buf.length)

/-- Collaborator read-at-cursor: returns up to n bytes from the cursor
and advances the cursor; errors on a handle not opened for reading. -/
def File.read (f : File) (fs : FS) (n : Nat) : Except IoError (List Nat × File) :=
  if f.readOpen then
    match FS.lookup fs f.path with
    | some d =>
        let bytes := (d.drop f.cursor).take n
        Except.ok (bytes, { f with cursor := f.cursor + bytes.length })
    | none => Except.error IoError.notFound
  else Except.error IoError.badHandle

/-- Collaborator write-at-cursor: overwrites buf at the cursor, advances
the cursor, returns the byte count; errors on a read-only handle. -/
def File.write (f : File) (fs : FS) (buf : List Nat) : Except IoError (Nat × File × FS) :=
  if f.writeOpen then
    match FS.lookup fs f.path with
    | some d =>
        Except.ok (buf.length, { f with cursor := f.cursor + buf.length },
                   FS.update fs f.path (overwriteBytes d f.cursor buf))
    | none => Except.error IoError.notFound
  else Except.error IoError.badHandle

/-- Collaborator seek-from-start: sets the cursor, returns the position. -/
def File.seek (f : File) (pos : Nat) : Except IoError (Nat × File) :=
  Except.ok (pos, { f with cursor := pos })

/-- Collaborator flush. -/
def File.flush (_f : File) : Except IoError Unit :=
  Except.ok ()

/-- The mutex-protected shared state of RWFile (struct RWFileMeta). -/
structure RWFileMeta where
  reader_count : Nat
  writing : Bool
deriving DecidableEq

/-- A readable and writeable file (struct RWFile): the stored path and
the lock state. -/
structure RWFile where
  path : String
  meta : RWFileMeta
deriving DecidableEq

/-- RWFile::new — builds the struct with reader_count 0 and writing
false; the source body performs no filesystem call. -/
def RWFile.new (p : String) : RWFile :=
  { path := p, meta := { reader_count := 0, writing := false } }

/-- State-passing form of RWFile::new: the source constructor only
builds the struct, so the filesystem component passes through untouched. -/
def RWFile.newRun (p : String) (fs : FS) : RWFile × FS :=
  (RWFile.new p, fs)

/-- Read guard for a file (struct FileReader); owns its file handle.
The belong_to back-reference is modelled by passing the parent's meta
explicitly to the release functions. -/
structure FileReader where
  file : File
deriving DecidableEq

/-- Write guard for a file (struct FileWriter); owns its file handle. -/
structure FileWriter where
  file : File
deriving DecidableEq

/-- Read for FileReader: self.file.read(buf). -/
def FileReader.read (r : FileReader) (fs : FS) (n : Nat) :
    Except IoError (List Nat × FileReader) :=
  match File.read r.file fs n with
  | Except.ok (bs, f) => Except.ok (bs, ⟨f⟩)
  | Except.error e => Except.error e

/-- Seek for FileReader: self.file.seek(pos). -/
def FileReader.seek (r : FileReader) (pos : Nat) :
    Except IoError (Nat × FileReader) :=
  match File.seek r.file pos with
  | Except.ok (k, f) => Except.ok (k, ⟨f⟩)
  | Except.error e => Except.error e

/-- Write for FileWriter: self.file.write(buf). -/
def FileWriter.write (w : FileWriter) (fs : FS) (buf : List Nat) :
    Except IoError (Nat × FileWriter × FS) :=
  match File.write w.file fs buf with
  | Except.ok (k, f, fs2) => Except.ok (k, ⟨f⟩, fs2)
  | Except.error e => Except.error e

/-- Flush for FileWriter: self.file.flush(). -/
def FileWriter.flush (w : FileWriter) : Except IoError Unit :=
  File.flush w.file

/-- Effect of Drop for FileReader on the parent lock state:
reader_count -= 1. -/
def FileReader.dropMeta (m : RWFileMeta) : RWFileMeta :=
  { m with reader_count := m.reader_count - 1 }

/-- Effect of Drop for FileWriter on the parent lock state:
writing = false. -/
def FileWriter.dropMeta (m : RWFileMeta) : RWFileMeta :=
  { m with writing := false }

/-- Lifecycle of a guard: Rust ownership destroys a guard exactly once,
so a guard is either still acquired or already released. -/
inductive GuardPhase where
  | acquired
  | released
deriving DecidableEq

/-- Destruction of a read guard: from the acquired phase it runs the
Drop effect on the parent meta and moves to released; a released guard
cannot be dropped again (single transition). -/
def FileReader.dropGuard : GuardPhase → RWFileMeta → Option (GuardPhase × RWFileMeta)
  | GuardPhase.acquired, m => some (GuardPhase.released, FileReader.dropMeta m)
  | GuardPhase.released, _ => none

/-- Destruction of a write guard, analogously. -/
def FileWriter.dropGuard : GuardPhase → RWFileMeta → Option (GuardPhase × RWFileMeta)
  | GuardPhase.acquired, m => some (GuardPhase.released, FileWriter.dropMeta m)
  | GuardPhase.released, _ => none

/-- One iteration of the admission loop in RWFile::reader: under the
lock, if !writing then increment reader_count and admit; otherwise the
source drops the lock guard and yields (none = retry). -/
def readerAdmit (m : RWFileMeta) : Option RWFileMeta :=
  if !m.writing then some { m with reader_count := m.reader_count + 1 } else none

/-- One iteration of the admission loop in RWFile::writer: under the
lock, if !writing && reader_count == 0 then set writing and admit;
otherwise drop the lock guard and yield (none = retry). -/
def writerAdmit (m : RWFileMeta) : Option RWFileMeta :=
  if !m.writing && m.reader_count == 0 then some { m with writing := true } else none

/-- Result of an acquisition after admission.  The source unwraps the
open result, so an open failure is a panic; the ioError constructor
exists only to state the spec's claimed return-an-error behavior and is
never produced by the code model. -/
inductive AcqResult (G : Type) where
  | ok (g : G)
  | ioError (e : IoError)
  | panicked (e : IoError)
deriving DecidableEq

/-- RWFile::reader, one loop round plus the open: none when admission
fails this round (the loop retries); otherwise reader_count is already
incremented and the read-only open is unwrapped — a failed open panics
with the reservation left in place. -/
def RWFile.reader (rw : RWFile) (fs : FS) :
    Option (AcqResult FileReader × RWFile) :=
  match readerAdmit rw.meta with
  | none => none
  | some m =>
      match openRead fs rw.path with
      | Except.ok f => some (AcqResult.ok ⟨f⟩, { rw with meta := m })
      | Except.error e => some (AcqResult.panicked e, { rw with meta := m })

/-- RWFile::writer, one loop round plus the open: none when admission
fails this round; otherwise writing is already set and the
write-and-create open (which the model makes total) yields the guard. -/
def RWFile.writer (rw : RWFile) (fs : FS) :
    Option (AcqResult FileWriter × RWFile × FS) :=
  match writerAdmit rw.meta with
  | none => none
  | some m =>
      let ofs := openWrite fs rw.path
      some (AcqResult.ok ⟨ofs.1⟩, { rw with meta := m }, ofs.2)

/-- One sequential round of the writer workload from the crate's test:
acquire a writer guard (from idle this succeeds in one loop round),
write the marker through it, and drop the guard. -/
def writerRound (rw : RWFile) (fs : FS) (marker : List Nat) : Option (RWFile × FS) :=
  match RWFile.writer rw fs with
  | some (AcqResult.ok w, rw1, fs1) =>
      match FileWriter.write w fs1 marker with
      | Except.ok (_, _, fs2) =>
          some ({ rw1 with meta := FileWriter.dropMeta rw1.meta }, fs2)
      | Except.error _ => none
  | _ => none

/-- The writer workload iterated: m successive writer guards, each
writing the marker once. -/
def writeMarkerRounds (marker : List Nat) : Nat → RWFile × FS → Option (RWFile × FS)
  | 0, st => some st
  | n + 1, (rw, fs) =>
      match writerRound rw fs marker with
      | none => none
      | some st2 => writeMarkerRounds marker n st2

/-- Global state of the concurrency model: the lock state together with
the numbers of outstanding read and write guards. -/
structure SysState where
  lock : RWFileMeta
  readers : Nat
  writers : Nat
deriving DecidableEq

/-- The state of a freshly constructed RWFile: idle lock, no guards. -/
def initSys : SysState :=
  { lock := { reader_count := 0, writing := false }, readers := 0, writers := 0 }

/-- Interleaving semantics: each transition is one successful admission
check-and-set (producing a guard, or panicking on a failed open with
the reservation left behind) or one guard destruction. -/
inductive SysStep : SysState → SysState → Prop where
  | acquireReader (s : SysState) (m : RWFileMeta)
      (h : readerAdmit s.lock = some m) :
      SysStep s { lock := m, readers := s.readers + 1, writers := s.writers }
  | acquireReaderPanic (s : SysState) (m : RWFileMeta)
      (h : readerAdmit s.lock = some m) :
      SysStep s { lock := m, readers := s.readers, writers := s.writers }
  | acquireWriter (s : SysState) (m : RWFileMeta)
      (h : writerAdmit s.lock = some m) :
      SysStep s { lock := m, readers := s.readers, writers := s.writers + 1 }
  | acquireWriterPanic (s : SysState) (m : RWFileMeta)
      (h : writerAdmit s.lock = some m) :
      SysStep s { lock := m, readers := s.readers, writers := s.writers }
  | releaseReader (s : SysState) (h : 0 < s.readers) :
      SysStep s { lock := FileReader.dropMeta s.lock,
                  readers := s.readers - 1, writers := s.writers }
  | releaseWriter (s : SysState) (h : 0 < s.writers) :
      SysStep s { lock := FileWriter.dropMeta s.lock,
                  readers := s.readers, writers := s.writers - 1 }

/-- States reachable from a freshly constructed RWFile by any
interleaving of acquisitions and releases. -/
inductive Reachable : SysState → Prop where
  | refl : Reachable initSys
  | step {s s2 : SysState} : Reachable s → SysStep s s2 → Reachable s2

/-- The inductive invariant of the lock: outstanding read guards never
exceed reader_count, at most one write guard exists, an outstanding
write guard means writing is set, and writing excludes readers. -/
def SysInv (s : SysState) : Prop :=
  s.readers ≤ s.lock.reader_count ∧
  s.writers ≤ 1 ∧
  (0 < s.writers → s.lock.writing = true) ∧
  (s.lock.writing = true → s.lock.reader_count = 0)

theorem readerAdmit_elim {m m2 : RWFileMeta} (h : readerAdmit m = some m2) :
    m.writing = false ∧ m2 = { m with reader_count := m.reader_count + 1 } := by
  cases hw : m.writing <;> simp [readerAdmit, hw] at h
  exact ⟨rfl, h.symm⟩

theorem writerAdmit_elim {m m2 : RWFileMeta} (h : writerAdmit m = some m2) :
    m.writing = false ∧ m.reader_count = 0 ∧ m2 = { m with writing := true } := by
  cases hw : m.writing <;> simp [writerAdmit, hw] at h
  exact ⟨rfl, h.1, h.2.symm⟩

theorem sysInv_step {s s2 : SysState} (hs : SysInv s) (hstep : SysStep s s2) :
    SysInv s2 := by
  obtain ⟨h1, h2, h3, h4⟩ := hs
  cases hstep with
  | acquireReader m h =>
      obtain ⟨hw, rfl⟩ := readerAdmit_elim h
      refine ⟨Nat.succ_le_succ h1, h2, ?_, ?_⟩
      · intro hw0
        exact absurd (h3 hw0) (by simp [hw])
      · intro hcontra
        simp [hw] at hcontra
  | acquireReaderPanic m h =>
      obtain ⟨hw, rfl⟩ := readerAdmit_elim h
      refine ⟨Nat.le_succ_of_le h1, h2, ?_, ?_⟩
      · intro hw0
        exact absurd (h3 hw0) (by simp [hw])
      · intro hcontra
        simp [hw] at hcontra
  | acquireWriter m h =>
      obtain ⟨hw, h0, rfl⟩ := writerAdmit_elim h
      have hwz : s.writers = 0 := by
        by_contra hne
        exact absurd (h3 (Nat.pos_of_ne_zero hne)) (by simp [hw])
      refine ⟨by simpa [h0] using h1, by simp [hwz], fun _ => rfl, fun _ => h0⟩
  | acquireWriterPanic m h =>
      obtain ⟨hw, h0, rfl⟩ := writerAdmit_elim h
      exact ⟨by simpa [h0] using h1, h2, fun _ => rfl, fun _ => h0⟩
  | releaseReader h =>
      refine ⟨Nat.sub_le_sub_right h1 1, h2, h3, ?_⟩
      intro hwv
      simp [FileReader.dropMeta, h4 hwv]
  | releaseWriter h =>
      refine ⟨h1, Nat.le_trans (Nat.sub_le _ _) h2, ?_, ?_⟩
      · intro h0
        have : s.writers - 1 = 0 := by omega
        simp [this] at h0
      · intro hcontra
        simp [FileWriter.dropMeta] at hcontra

theorem sysInv_of_reachable {s : SysState} (h : Reachable s) : SysInv s := by
  induction h with
  | refl => exact ⟨Nat.le_refl 0, Nat.zero_le 1, by simp [initSys], by simp [initSys]⟩
  | step _ hstep ih => exact sysInv_step ih hstep

theorem FS.lookup_update_self (fs : FS) (p : String) (d : List Nat) :
    FS.lookup (FS.update fs p d) p = some d := by
  induction fs with
  | nil => simp [FS.update, FS.lookup]
  | cons hd tl ih =>
      obtain ⟨q, e⟩ := hd
      by_cases hq : q = p
      · simp [FS.update, FS.lookup, hq]
      · simp [FS.update, FS.lookup, hq, ih]

theorem overwriteBytes_zero (d buf : List Nat) :
    overwriteBytes d 0 buf = buf ++ d.drop buf.length := by
  simp [overwriteBytes]

theorem writerRound_eq (p : String) (fs : FS) (marker d : List Nat)
    (hf : FS.lookup fs p = some d) :
    writerRound { path := p, meta := { reader_count := 0, writing := false } } fs marker
      = some ({ path := p, meta := { reader_count := 0, writing := false } },
              FS.update fs p (marker ++ d.drop marker.length)) := by
  simp [writerRound, RWFile.writer, writerAdmit, openWrite, hf,
        FileWriter.write, File.write, FileWriter.dropMeta, overwriteBytes_zero]

theorem writeMarkerRounds_fixed (marker : List Nat) (p : String) (k : Nat) (fs : FS)
    (hf : FS.lookup fs p = some marker) :
    (writeMarkerRounds marker k
        ({ path := p, meta := { reader_count := 0, writing := false } }, fs)).map
        (fun st => FS.lookup st.2 p) = some (some marker) := by
  induction k generalizing fs with
  | zero => simp [writeMarkerRounds, hf]
  | succ k ih =>
      simp only [writeMarkerRounds, writerRound_eq p fs marker marker hf,
                 List.drop_length, List.append_nil]
      exact ih (FS.update fs p marker) (FS.lookup_update_self fs p marker)

/-- Claim C1, counterexample: with no file at the stored path, the very
first reader acquisition opens unsuccessfully; the call does not return
an I/O error (it panics via unwrap) and the lock state does not equal
its pre-acquisition value (reader_count is left at 1). -/
theorem reader_open_failure_counterexample :
    (RWFile.reader (RWFile.new "f") []).map (fun r => r.1)
        = some (AcqResult.panicked IoError.notFound) ∧
    (RWFile.reader (RWFile.new "f") []).map (fun r => r.2.meta.reader_count) = some 1 ∧
    ¬ ((RWFile.reader (RWFile.new "f") []).map (fun r => r.1)
          = some (AcqResult.ioError IoError.notFound) ∧
       (RWFile.reader (RWFile.new "f") []).map (fun r => r.2.meta)
          = some (RWFile.new "f").meta) := by
  decide

/-- Claim C1, amended: if the underlying open fails after the admission
condition was satisfied, the call does not return an I/O error — the
source unwraps the open result and panics — and the shared lock state
keeps the reservation: for reader(), reader_count remains incremented
and writing is unchanged (writer() has the same unwrap structure). -/
theorem reader_open_failure_panics (rw : RWFile) (fs : FS)
    (hw : rw.meta.writing = false) (hf : FS.lookup fs rw.path = none) :
    RWFile.reader rw fs
      = some (AcqResult.panicked IoError.notFound,
              { rw with meta := { reader_count := rw.meta.reader_count + 1,
                                  writing := rw.meta.writing } }) := by
  simp [RWFile.reader, readerAdmit, hw, openRead, hf]

/-- Witness for the amended claim C1 at a concrete input. -/
theorem reader_open_failure_witness :
    RWFile.reader (RWFile.new "f") []
      = some (AcqResult.panicked IoError.notFound,
              { path := "f", meta := { reader_count := 1, writing := false } }) :=
  reader_open_failure_panics (RWFile.new "f") [] rfl rfl

/-- Claim C2: in every state reachable by any sequence of acquisitions
and releases from a freshly constructed RWFile, writing implies
reader_count == 0 and reader_count > 0 implies writing is false. -/
theorem mutual_exclusion_invariant {s : SysState} (h : Reachable s) :
    (s.lock.writing = true → s.lock.reader_count = 0) ∧
    (0 < s.lock.reader_count → s.lock.writing = false) := by
  have hinv := sysInv_of_reachable h
  refine ⟨hinv.2.2.2, ?_⟩
  intro hrc
  cases hwv : s.lock.writing with
  | false => rfl
  | true => exact absurd (hinv.2.2.2 hwv) (by omega)

/-- Witness for claim C2: the invariant evaluated in the reachable
state after one reader acquisition. -/
theorem mutual_exclusion_witness :
    (({ lock := { reader_count := 1, writing := false },
        readers := 1, writers := 0 } : SysState).lock.writing = true →
      ({ lock := { reader_count := 1, writing := false },
         readers := 1, writers := 0 } : SysState).lock.reader_count = 0) ∧
    (0 < ({ lock := { reader_count := 1, writing := false },
            readers := 1, writers := 0 } : SysState).lock.reader_count →
      ({ lock := { reader_count := 1, writing := false },
         readers := 1, writers := 0 } : SysState).lock.writing = false) :=
  mutual_exclusion_invariant
    (Reachable.step Reachable.refl
      (SysStep.acquireReader initSys { reader_count := 1, writing := false } (by decide)))

/-- Claim C3, counterexample: sequentially (N = 1), two successive
writer guards each writing the marker once leave the file holding a
single marker, not N times M = 2 markers, because each fresh write
handle starts at offset 0 and overwrites. -/
theorem writer_markers_counterexample :
    (writeMarkerRounds [1, 2, 3] 2 (RWFile.new "f", [("f", [])])).map
        (fun st => FS.lookup st.2 "f") = some (some [1, 2, 3]) ∧
    ¬ (writeMarkerRounds [1, 2, 3] 2 (RWFile.new "f", [("f", [])])).map
        (fun st => FS.lookup st.2 "f") = some (some ([1, 2, 3] ++ [1, 2, 3])) := by
  decide

/-- Claim C3, amended: every writer guard's handle starts at offset 0
and overwrites, so M successive writer guards (M at least 1), each
writing a fixed marker once into an initially empty file, leave the
file containing exactly one marker. -/
theorem writer_rounds_overwrite_single_marker (marker : List Nat) (p : String)
    (m : Nat) (hm : 1 ≤ m) :
    (writeMarkerRounds marker m (RWFile.new p, [(p, [])])).map
        (fun st => FS.lookup st.2 p) = some (some marker) := by
  cases m with
  | zero => omega
  | succ k =>
      have hstart : FS.lookup [(p, ([] : List Nat))] p = some [] := by
        simp [FS.lookup]
      simp only [RWFile.new, writeMarkerRounds,
                 writerRound_eq p [(p, [])] marker [] hstart,
                 List.drop_nil, List.append_nil]
      exact writeMarkerRounds_fixed marker p k _
        (FS.lookup_update_self [(p, [])] p marker)

/-- Witness for the amended claim C3 at a concrete input. -/
theorem writer_single_marker_witness :
    (writeMarkerRounds [7] 3 (RWFile.new "g", [("g", [])])).map
        (fun st => FS.lookup st.2 "g") = some (some [7]) :=
  writer_rounds_overwrite_single_marker [7] "g" 3 (by decide)

/-- Claim C4: reader() admits exactly when writing == false (the check
reads only the writing flag, so admission does not depend on
reader_count and stays open for further readers), increments
reader_count by one in the same critical section, and hands out a
fresh read-only handle at the stored path with cursor 0. -/
theorem reader_admission_characterization (rw : RWFile) (fs : FS) (d : List Nat)
    (hw : rw.meta.writing = false) (hf : FS.lookup fs rw.path = some d) :
    (∀ m : RWFileMeta, (readerAdmit m).isSome = !m.writing) ∧
    (∀ m m2 : RWFileMeta, readerAdmit m = some m2 →
      m2.reader_count = m.reader_count + 1 ∧ m2.writing = m.writing) ∧
    (∀ m m2 : RWFileMeta, readerAdmit m = some m2 → (readerAdmit m2).isSome = true) ∧
    RWFile.reader rw fs
      = some (AcqResult.ok
                ⟨{ path := rw.path, cursor := 0, readOpen := true, writeOpen := false }⟩,
              { rw with meta := { reader_count := rw.meta.reader_count + 1,
                                  writing := rw.meta.writing } }) := by
  refine ⟨?_, ?_, ?_, ?_⟩
  · intro m
    cases hm : m.writing <;> simp [readerAdmit, hm]
  · intro m m2 h
    obtain ⟨hw2, rfl⟩ := readerAdmit_elim h
    exact ⟨rfl, rfl⟩
  · intro m m2 h
    obtain ⟨hw2, rfl⟩ := readerAdmit_elim h
    simp [readerAdmit, hw2]
  · simp [RWFile.reader, readerAdmit, hw, openRead, hf]

/-- Witness for claim C4 at a concrete input. -/
theorem reader_admission_witness :
    RWFile.reader (RWFile.new "f") [("f", [])]
      = some (AcqResult.ok
                ⟨{ path := "f", cursor := 0, readOpen := true, writeOpen := false }⟩,
              { path := "f", meta := { reader_count := 1, writing := false } }) :=
  (reader_admission_characterization (RWFile.new "f") [("f", [])] [] rfl (by decide)).2.2.2

/-- Claim C5: writer() admits exactly when writing == false and
reader_count == 0, sets writing in the same critical section leaving
reader_count unchanged, hands out a writable handle at the stored path
(created empty when absent), and at most one write guard is
outstanding in any reachable state. -/
theorem writer_admission_characterization (rw : RWFile) (fs : FS) (s : SysState)
    (hw : rw.meta.writing = false) (h0 : rw.meta.reader_count = 0)
    (hs : Reachable s) :
    (∀ m : RWFileMeta, (writerAdmit m).isSome = (!m.writing && m.reader_count == 0)) ∧
    (∀ m m2 : RWFileMeta, writerAdmit m = some m2 →
      m2.writing = true ∧ m2.reader_count = m.reader_count) ∧
    RWFile.writer rw fs
      = some (AcqResult.ok
                ⟨{ path := rw.path, cursor := 0, readOpen := false, writeOpen := true }⟩,
              { rw with meta := { reader_count := rw.meta.reader_count,
                                  writing := true } },
              (openWrite fs rw.path).2) ∧
    (FS.lookup fs rw.path = none →
      FS.lookup (openWrite fs rw.path).2 rw.path = some []) ∧
    s.writers ≤ 1 := by
  refine ⟨?_, ?_, ?_, ?_, (sysInv_of_reachable hs).2.1⟩
  · intro m
    cases hm : m.writing
    · by_cases h2 : m.reader_count = 0 <;> simp [writerAdmit, hm, h2]
    · simp [writerAdmit, hm]
  · intro m m2 h
    obtain ⟨hw2, h02, rfl⟩ := writerAdmit_elim h
    exact ⟨rfl, rfl⟩
  · cases hL : FS.lookup fs rw.path <;>
      simp [RWFile.writer, writerAdmit, hw, h0, openWrite, hL]
  · intro hn
    simp [openWrite, hn, FS.lookup_update_self]

/-- Witness for claim C5 at a concrete input (absent file, so the
create branch of the open is exercised). -/
theorem writer_admission_witness :
    RWFile.writer (RWFile.new "f") []
      = some (AcqResult.ok
                ⟨{ path := "f", cursor := 0, readOpen := false, writeOpen := true }⟩,
              { path := "f", meta := { reader_count := 0, writing := true } },
              [("f", [])]) :=
  (writer_admission_characterization (RWFile.new "f") [] initSys rfl rfl Reachable.refl).2.2.1

/-- Claim C6: dropping an acquired ReadGuard decrements reader_count by
exactly one and dropping an acquired WriteGuard clears writing, both
total (never failing) and both moving the guard to the released phase,
from which no further release transition exists (exactly once). -/
theorem guard_release_exactly_once (m : RWFileMeta) (h : 1 ≤ m.reader_count) :
    FileReader.dropGuard GuardPhase.acquired m
      = some (GuardPhase.released, { m with reader_count := m.reader_count - 1 }) ∧
    (m.reader_count - 1) + 1 = m.reader_count ∧
    FileWriter.dropGuard GuardPhase.acquired m
      = some (GuardPhase.released, { m with writing := false }) ∧
    FileReader.dropGuard GuardPhase.released m = none ∧
    FileWriter.dropGuard GuardPhase.released m = none :=
  ⟨rfl, Nat.sub_add_cancel h, rfl, rfl, rfl⟩

/-- Witness for claim C6 at a concrete input. -/
theorem guard_release_witness :
    FileReader.dropGuard GuardPhase.acquired { reader_count := 2, writing := true }
      = some (GuardPhase.released, { reader_count := 1, writing := true }) ∧
    (2 - 1) + 1 = 2 ∧
    FileWriter.dropGuard GuardPhase.acquired { reader_count := 2, writing := true }
      = some (GuardPhase.released, { reader_count := 2, writing := false }) ∧
    FileReader.dropGuard GuardPhase.released { reader_count := 2, writing := true } = none ∧
    FileWriter.dropGuard GuardPhase.released { reader_count := 2, writing := true } = none :=
  guard_release_exactly_once { reader_count := 2, writing := true } (by decide)

/-- Claim C7: new(p) stores p, initializes reader_count to 0 and
writing to false, and performs no filesystem operation (the filesystem
passes through construction untouched). -/
theorem new_initializes_idle_state (p : String) (fs : FS) :
    RWFile.newRun p fs
      = ({ path := p, meta := { reader_count := 0, writing := false } }, fs) :=
  rfl

/-- Claim C8: every guard I/O operation returns exactly the result of
the same operation on the guard's owned handle — errors are propagated
unchanged and successes carry the same payload — and none of these
operations touches the shared lock state (they neither take nor return
an RWFileMeta). -/
theorem guard_io_delegation (r : FileReader) (w : FileWriter) (fs : FS)
    (n pos : Nat) (buf : List Nat) :
    (∀ e, File.read r.file fs n = Except.error e →
        FileReader.read r fs n = Except.error e) ∧
    (∀ bs f, File.read r.file fs n = Except.ok (bs, f) →
        FileReader.read r fs n = Except.ok (bs, ⟨f⟩)) ∧
    (∀ e, File.seek r.file pos = Except.error e →
        FileReader.seek r pos = Except.error e) ∧
    (∀ k f, File.seek r.file pos = Except.ok (k, f) →
        FileReader.seek r pos = Except.ok (k, ⟨f⟩)) ∧
    (∀ e, File.write w.file fs buf = Except.error e →
        FileWriter.write w fs buf = Except.error e) ∧
    (∀ k f fs2, File.write w.file fs buf = Except.ok (k, f, fs2) →
        FileWriter.write w fs buf = Except.ok (k, ⟨f⟩, fs2)) ∧
    FileWriter.flush w = File.flush w.file := by
  refine ⟨?_, ?_, ?_, ?_, ?_, ?_, rfl⟩
  · intro e h
    simp [FileReader.read, h]
  · intro bs f h
    simp [FileReader.read, h]
  · intro e h
    simp [FileReader.seek, h]
  · intro k f h
    simp [FileReader.seek, h]
  · intro e h
    simp [FileWriter.write, h]
  · intro k f fs2 h
    simp [FileWriter.write, h]

/-- Witness for claim C8: error propagation at a concrete input (a
read on a handle whose file is gone). -/
theorem guard_io_delegation_witness :
    FileReader.read ⟨{ path := "f", cursor := 0, readOpen := true, writeOpen := false }⟩ [] 5
      = Except.error IoError.notFound :=
  (guard_io_delegation
      ⟨{ path := "f", cursor := 0, readOpen := true, writeOpen := false }⟩
      ⟨{ path := "f", cursor := 0, readOpen := false, writeOpen := true }⟩
      [] 5 0 []).1 IoError.notFound rfl

/-- Claim C9: reader admission and ReadGuard destruction leave the
writing flag unchanged, writer admission and WriteGuard destruction
leave reader_count unchanged, and both acquisitions preserve the
stored path. -/
theorem frame_effects :
    (∀ m m2 : RWFileMeta, readerAdmit m = some m2 → m2.writing = m.writing) ∧
    (∀ m : RWFileMeta, (FileReader.dropMeta m).writing = m.writing) ∧
    (∀ m m2 : RWFileMeta, writerAdmit m = some m2 → m2.reader_count = m.reader_count) ∧
    (∀ m : RWFileMeta, (FileWriter.dropMeta m).reader_count = m.reader_count) ∧
    (∀ (rw rw2 : RWFile) (fs : FS) (g : AcqResult FileReader),
        RWFile.reader rw fs = some (g, rw2) → rw2.path = rw.path) ∧
    (∀ (rw rw2 : RWFile) (fs fs2 : FS) (g : AcqResult FileWriter),
        RWFile.writer rw fs = some (g, rw2, fs2) → rw2.path = rw.path) := by
  refine ⟨?_, fun m => rfl, ?_, fun m => rfl, ?_, ?_⟩
  · intro m m2 h
    obtain ⟨_, rfl⟩ := readerAdmit_elim h
    rfl
  · intro m m2 h
    obtain ⟨_, _, rfl⟩ := writerAdmit_elim h
    rfl
  · intro rw rw2 fs g h
    unfold RWFile.reader at h
    cases hA : readerAdmit rw.meta with
    | none => rw [hA] at h; exact absurd h (by simp)
    | some m =>
        rw [hA] at h
        cases hO : openRead fs rw.path with
        | ok f =>
            rw [hO] at h
            simp only [Option.some.injEq, Prod.mk.injEq] at h
            rw [← h.2]
        | error e =>
            rw [hO] at h
            simp only [Option.some.injEq, Prod.mk.injEq] at h
            rw [← h.2]
  · intro rw rw2 fs fs2 g h
    unfold RWFile.writer at h
    cases hA : writerAdmit rw.meta with
    | none => rw [hA] at h; exact absurd h (by simp)
    | some m =>
        rw [hA] at h
        simp only [Option.some.injEq, Prod.mk.injEq] at h
        rw [← h.2.1]

/-- Witness for claim C9: the path is preserved across a concrete
reader acquisition. -/
theorem frame_effects_witness :
    ({ path := "f", meta := { reader_count := 1, writing := false } } : RWFile).path = "f" :=
  frame_effects.2.2.2.2.1 (RWFile.new "f")
    { path := "f", meta := { reader_count := 1, writing := false } } [("f", [])]
    (AcqResult.ok ⟨{ path := "f", cursor := 0, readOpen := true, writeOpen := false }⟩)
    (by decide)

/-- Claim C10: the write handle is opened with write and create but
without append or truncate — for an existing file the open leaves the
contents (hence the length) untouched and positions the cursor at 0,
so a write without a prior seek overwrites from the beginning, keeping
any suffix beyond the written span. -/
theorem writer_open_no_append_no_truncate (fs : FS) (p : String) (d buf : List Nat)
    (hf : FS.lookup fs p = some d) :
    openWrite fs p
      = ({ path := p, cursor := 0, readOpen := false, writeOpen := true }, fs) ∧
    FS.lookup (openWrite fs p).2 p = some d ∧
    File.write (openWrite fs p).1 fs buf
      = Except.ok (buf.length,
          { path := p, cursor := buf.length, readOpen := false, writeOpen := true },
          FS.update fs p (buf ++ d.drop buf.length)) := by
  have h1 : openWrite fs p
      = ({ path := p, cursor := 0, readOpen := false, writeOpen := true }, fs) := by
    simp [openWrite, hf]
  refine ⟨h1, ?_, ?_⟩
  · rw [h1]
    exact hf
  · rw [h1]
    simp [File.write, hf, overwriteBytes]

/-- Witness for claim C10 at a concrete input: opening "f" holding
bytes 5 6 7 changes nothing, and writing byte 9 without seeking yields
9 6 7. -/
theorem writer_open_witness :
    openWrite [("f", [5, 6, 7])] "f"
      = ({ path := "f", cursor := 0, readOpen := false, writeOpen := true },
         [("f", [5, 6, 7])]) ∧
    FS.lookup (openWrite [("f", [5, 6, 7])] "f").2 "f" = some [5, 6, 7] ∧
    File.write (openWrite [("f", [5, 6, 7])] "f").1 [("f", [5, 6, 7])] [9]
      = Except.ok (1,
          { path := "f", cursor := 1, readOpen := false, writeOpen := true },
          [("f", [9, 6, 7])]) :=
  writer_open_no_append_no_truncate [("f", [5, 6, 7])] "f" [5, 6, 7] [9] (by decide)
